import Mathlib

/-!
Verification of the blood-pressure tracker (`src/app.py`).

This file shallowly embeds the core logic of the app in Lean:
pure helpers (`categorize_bp`, `parse_int`, the derived-metric computation of
`add_entry`), the persistence router (`load_data` / `save_data` with its
remote-to-local fallback), the row-level merge performed by the CSV upload
handler, and the weekly summary block.  Machine details that the claims
depend on are modelled explicitly: Python `round(x, 1)` as rational
round-half-to-even scaled by 10, Python `int(...)` as sign-plus-decimal-digit
parsing, Python `str.strip` as trimming whitespace characters from both ends,
and pandas timestamps as integer day numbers (day 0 = 1970-01-01, a Thursday,
so Mondays are the days congruent to 4 mod 7; `to_period("W").start_time` is
the Monday of the timestamp's week).
-/

/-- Function `categorize_bp` from `src/app.py` lines 86-95: a top-to-bottom ladder of
rules, first match wins. -/
def categorize_bp (sys dia : ℤ) : String :=
  if sys < 120 ∧ dia < 80 then "Normal"
  else if 120 ≤ sys ∧ sys < 130 ∧ dia < 80 then "Elevated"
  else if (130 ≤ sys ∧ sys < 140) ∨ (80 ≤ dia ∧ dia < 90) then "Hypertension Stage 1"
  else if 140 ≤ sys ∨ 90 ≤ dia then "Hypertension Stage 2"
  else "Uncategorized"

/-- Python `str.strip()`: remove whitespace from both ends of the string. -/
def pythonStrip (s : String) : String :=
  ⟨((s.data.dropWhile Char.isWhitespace).reverse.dropWhile Char.isWhitespace).reverse⟩

/-- Value of a list of decimal digit characters. -/
def digitsVal (cs : List Char) : ℤ :=
  cs.foldl (fun a c => 10 * a + ((c.toNat : ℤ) - 48)) 0

/-- Python `int(s)` on an already-stripped string: an optional sign followed
by a nonempty run of decimal digits; anything else raises `ValueError`
(modelled as `none`). -/
def pythonParseInt (s : String) : Option ℤ :=
  match s.data with
  | [] => none
  | c :: rest =>
    let signVal : ℤ := if c = '-' then -1 else 1
    let digits := if c = '-' ∨ c = '+' then rest else c :: rest
    if digits.all Char.isDigit ∧ ¬ digits = [] then some (signVal * digitsVal digits)
    else none

/-- Function `parse_int` from `src/app.py` lines 97-107.  Returns
`(value | none, error message | none)` exactly as the Python
`(value:int|None, error_msg:str|None)` pair. -/
def parse_int (field_label raw : String) (min_v max_v : ℤ) : Option ℤ × Option String :=
  if pythonStrip raw = "" then (none, some (field_label ++ " is required."))
  else
    match pythonParseInt (pythonStrip raw) with
    | none => (none, some (field_label ++ " must be a whole number."))
    | some val =>
      if min_v ≤ val ∧ val ≤ max_v then (some val, none)
      else (none, some (field_label ++ " must be between " ++ toString min_v ++
              " and " ++ toString max_v ++ "."))

/-- Round a rational to the nearest integer, ties to even: the rounding mode
of Python's builtin `round`. -/
def roundHalfEven (q : ℚ) : ℤ :=
  let n := ⌊q⌋
  let frac := q - (n : ℚ)
  if frac < 1/2 then n
  else if 1/2 < frac then n + 1
  else if n % 2 = 0 then n else n + 1

/-- Python `round(x, 1)`: round to one decimal place, ties to even. -/
def pythonRound1 (q : ℚ) : ℚ :=
  (roundHalfEven (q * 10) : ℚ) / 10

/-- The derived-metric computation of `add_entry` (`src/app.py` lines 192-200):
`pp = sys - dia`; `map = round(dia + pp/3, 1)`. -/
def derive (sys dia : ℤ) : ℤ × ℚ :=
  let pp := sys - dia
  (pp, pythonRound1 ((dia : ℚ) + (pp : ℚ) / 3))

/-- One persisted reading: the row dict built by `add_entry` (`src/app.py`
lines 193-201).  Timestamps are modelled as integer day numbers
(day 0 = 1970-01-01). -/
structure Row where
  timestamp : ℤ
  systolic : ℤ
  diastolic : ℤ
  notes : String
  category : String
  map : ℚ
  pulse_pressure : ℤ
deriving DecidableEq

/-- Comparison of rows by timestamp: the key of `sort_values("timestamp")`. -/
def tsLe (a b : Row) : Prop := a.timestamp ≤ b.timestamp

instance : DecidableRel tsLe :=
  fun a b => inferInstanceAs (Decidable (a.timestamp ≤ b.timestamp))

instance : IsTotal Row tsLe :=
  ⟨fun a b => le_total a.timestamp b.timestamp⟩

instance : IsTrans Row tsLe :=
  ⟨fun _ _ _ hab hbc => le_trans hab hbc⟩

/-- Model of `DataFrame.sort_values("timestamp")`: sort the rows by timestamp
ascending. -/
def sortByTimestamp (l : List Row) : List Row := l.insertionSort tsLe

/-- Helper for `dropDuplicates`: drop the rows already seen, keeping first
occurrences. -/
def dropDuplicatesFrom (seen : List Row) : List Row → List Row
  | [] => []
  | x :: xs =>
    if x ∈ seen then dropDuplicatesFrom seen xs
    else x :: dropDuplicatesFrom (x :: seen) xs

/-- pandas `drop_duplicates()`: remove every row equal to an earlier row in
all columns. -/
def dropDuplicates (l : List Row) : List Row := dropDuplicatesFrom [] l

/-- The sidebar upload merge handler (`src/app.py` line 236):
`pd.concat([existing, incoming]).drop_duplicates().sort_values("timestamp")`. -/
def mergeDatasets (existing incoming : List Row) : List Row :=
  sortByTimestamp (dropDuplicates (existing ++ incoming))

/-- The two persistence targets: the local CSV file and the remote worksheet.
`none` means the target was never written. -/
structure Stores where
  localCsv : Option (List Row)
  sheet : Option (List Row)
deriving DecidableEq

/-- Function `save_data` (`src/app.py` lines 178-188).  `gsEnabled` models
`_gs_enabled()`; `remoteErr` models the outcome of `save_data_gsheets`
(`some msg` = auth/open/write failure, `none` = success).  Returns the new
store state, the backend used, and the surfaced messages (`st.error` and
`st.info`); every remote failure is caught and answered with a local save,
never re-raised, so the embedding is a total function. -/
def save_data (df : List Row) (target_hint : String) (gsEnabled : Bool)
    (remoteErr : Option String) (st : Stores) : Stores × String × List String :=
  if target_hint = "gsheets" ∧ gsEnabled = true then
    match remoteErr with
    | some err => ({ st with localCsv := some df }, "local", [err, "Saving locally instead."])
    | none => ({ st with sheet := some df }, "gsheets", [])
  else ({ st with localCsv := some df }, "local", [])

/-- The row dict built by `add_entry` from validated inputs (`src/app.py`
lines 192-201); `notes or ""` turns a missing notes value into the empty
string. -/
def mkRow (sys dia : ℤ) (notes : Option String) (ts : ℤ) : Row :=
  { timestamp := ts
    systolic := sys
    diastolic := dia
    notes := notes.getD ""
    category := categorize_bp sys dia
    map := (derive sys dia).2
    pulse_pressure := (derive sys dia).1 }

/-- Function `add_entry` (`src/app.py` lines 190-204) without the persistence step:
concatenate the loaded dataset with the one new row and sort by timestamp. -/
def add_entry (prior : List Row) (sys dia : ℤ) (notes : Option String) (ts : ℤ) : List Row :=
  sortByTimestamp (prior ++ [mkRow sys dia notes ts])

/-- Function `add_entry` including its final `save_data` call: returns the new
dataset, the backend used, and the updated stores. -/
def add_entry_and_save (prior : List Row) (sys dia : ℤ) (notes : Option String) (ts : ℤ)
    (target_hint : String) (gsEnabled : Bool) (remoteErr : Option String) (st : Stores) :
    (List Row × String) × Stores :=
  let df := add_entry prior sys dia notes ts
  let r := save_data df target_hint gsEnabled remoteErr st
  ((df, r.2.1), r.1)

/-- The canonical column list `DATA_COLUMNS` (`src/app.py` line 15). -/
def DATA_COLUMNS : List String :=
  ["timestamp", "systolic", "diastolic", "notes", "category", "map"]

/-- A row as it comes out of `pd.read_csv(..., parse_dates=["timestamp"])`
followed by `pd.to_numeric(..., errors="coerce")`: every field optional,
entries that failed to parse already coerced to `none` (NaN/NaT). -/
structure ParsedRow where
  timestamp : Option ℤ
  systolic : Option ℚ
  diastolic : Option ℚ
  map : Option ℚ
  pulse_pressure : Option ℚ
  notes : Option String
  category : Option String
deriving DecidableEq

/-- A loaded dataframe: its column list and its parsed rows. -/
structure Frame where
  columns : List String
  rows : List ParsedRow
deriving DecidableEq

/-- Function `load_data_local` (`src/app.py` lines 112-120).  The input is the parsed
content of `bp_data.csv`, with `none` for an absent file
(`FileNotFoundError`); that case yields an empty dataframe carrying the
canonical columns instead of raising.  A present file keeps its own columns
and drops the rows whose timestamp failed to parse
(`dropna(subset=["timestamp"])`). -/
def load_data_local (file : Option Frame) : Frame :=
  match file with
  | none => { columns := DATA_COLUMNS, rows := [] }
  | some f => { columns := f.columns, rows := f.rows.filter (fun r => r.timestamp.isSome) }

/-- Day 0 (1970-01-01) is a Thursday, so Mondays are the days ≡ 4 (mod 7);
`to_period("W").start_time` (`src/app.py` line 387) is the Monday on or
before the timestamp. -/
def weekStart (t : ℤ) : ℤ := t - (t - 4) % 7

/-- One metric's block of the aggregated table: the count/mean/min/max
columns of `.agg(["count", "mean", "min", "max"])`, already flattened to the
`<metric>_<statistic>` names (`src/app.py` lines 394-395). -/
def statsFor (metric : String) (vals : List ℚ) : List (String × ℚ) :=
  match vals with
  | [] => []
  | v :: vs =>
    [(metric ++ "_count", ((v :: vs).length : ℚ)),
     (metric ++ "_mean", (v :: vs).sum / ((v :: vs).length : ℚ)),
     (metric ++ "_min", vs.foldl min v),
     (metric ++ "_max", vs.foldl max v)]

/-- The weekly summary block (`src/app.py` lines 374-396): bucket the rows by
the start of their calendar week, group keys ascending (pandas `groupby`
sorts its keys), and aggregate each numeric column with count/mean/min/max. -/
def weekly_summary (rows : List Row) : List (ℤ × List (String × ℚ)) :=
  let weeks := (rows.map (fun r => weekStart r.timestamp)).dedup
  let sortedWeeks := weeks.insertionSort (fun a b => a ≤ b)
  sortedWeeks.map (fun w =>
    let grp := rows.filter (fun r => weekStart r.timestamp = w)
    (w, statsFor "systolic" (grp.map (fun r => (r.systolic : ℚ))) ++
        statsFor "diastolic" (grp.map (fun r => (r.diastolic : ℚ))) ++
        statsFor "map" (grp.map (fun r => r.map)) ++
        statsFor "pulse_pressure" (grp.map (fun r => (r.pulse_pressure : ℚ)))))

/-- Membership in `dropDuplicatesFrom seen l`: the elements of `l` not in
`seen`. -/
lemma mem_dropDuplicatesFrom (r : Row) :
    ∀ (l seen : List Row), r ∈ dropDuplicatesFrom seen l ↔ r ∈ l ∧ r ∉ seen := by
  intro l
  induction l with
  | nil => intro seen; simp [dropDuplicatesFrom]
  | cons x xs ih =>
    intro seen
    simp only [dropDuplicatesFrom]
    by_cases hx : x ∈ seen
    · rw [if_pos hx, ih]
      simp only [List.mem_cons]
      constructor
      · rintro ⟨h1, h2⟩
        exact ⟨Or.inr h1, h2⟩
      · rintro ⟨rfl | h1, h2⟩
        · exact absurd hx h2
        · exact ⟨h1, h2⟩
    · rw [if_neg hx]
      simp only [List.mem_cons, ih]
      constructor
      · rintro (rfl | ⟨h1, h2⟩)
        · exact ⟨Or.inl rfl, hx⟩
        · exact ⟨Or.inr h1, fun hc => h2 (Or.inr hc)⟩
      · rintro ⟨rfl | h1, h2⟩
        · exact Or.inl rfl
        · by_cases hrx : r = x
          · exact Or.inl hrx
          · exact Or.inr ⟨h1, fun hc => hc.elim hrx h2⟩

/-- Dropping duplicates keeps exactly the elements of its input. -/
lemma mem_dropDuplicates (r : Row) (l : List Row) :
    r ∈ dropDuplicates l ↔ r ∈ l := by
  rw [dropDuplicates, mem_dropDuplicatesFrom]
  simp

/-- Sorting by timestamp keeps exactly the elements of its input. -/
lemma mem_sortByTimestamp (r : Row) (l : List Row) :
    r ∈ sortByTimestamp l ↔ r ∈ l :=
  (List.perm_insertionSort tsLe l).mem_iff

/-- Membership in a merged dataset is membership in either argument. -/
lemma mem_mergeDatasets (r : Row) (A B : List Row) :
    r ∈ mergeDatasets A B ↔ r ∈ A ∨ r ∈ B := by
  rw [mergeDatasets, mem_sortByTimestamp, mem_dropDuplicates, List.mem_append]

/-- C2: the categorization ladder takes the spec's values on all six boundary
cases; the embedding is the source's top-to-bottom `if` chain, so the first
matching rule decides. -/
theorem categorize_bp_boundaries :
    categorize_bp 119 79 = "Normal" ∧
    categorize_bp 120 79 = "Elevated" ∧
    categorize_bp 129 79 = "Elevated" ∧
    categorize_bp 130 79 = "Hypertension Stage 1" ∧
    categorize_bp 139 89 = "Hypertension Stage 1" ∧
    categorize_bp 140 70 = "Hypertension Stage 2" := by
  refine ⟨?_, ?_, ?_, ?_, ?_, ?_⟩ <;> decide

/-- C1 counterexample: the claim "categorize(110,85) = Uncategorized" is
false on the code: diastolic 85 satisfies `80 ≤ dia < 90`, so the Stage 1 rule
fires. -/
theorem categorize_bp_110_85_not_uncategorized :
    (categorize_bp 110 85 = "Uncategorized") = False :=
  eq_false (by decide)

/-- C1 (amended): categorize(110,85) = Hypertension Stage 1: the third rule
`(130 ≤ sys < 140) or (80 ≤ dia < 90)` matches any diastolic in [80,90)
regardless of systolic, so 110/85 is not a gap case. -/
theorem categorize_bp_110_85 :
    categorize_bp 110 85 = "Hypertension Stage 1" := by
  decide

/-- C10: for every integer pair, `categorize_bp` returns one of the four real
categories; the final "Uncategorized" fallthrough is unreachable, since a pair
that fails the Normal, Elevated and Stage 1 tests must pass the Stage 2 test. -/
theorem categorize_bp_never_uncategorized (sys dia : ℤ) :
    categorize_bp sys dia = "Normal" ∨
    categorize_bp sys dia = "Elevated" ∨
    categorize_bp sys dia = "Hypertension Stage 1" ∨
    categorize_bp sys dia = "Hypertension Stage 2" := by
  unfold categorize_bp
  split_ifs with h1 h2 h3 h4
  · exact Or.inl rfl
  · exact Or.inr (Or.inl rfl)
  · exact Or.inr (Or.inr (Or.inl rfl))
  · exact Or.inr (Or.inr (Or.inr rfl))
  · exact absurd trivial (by omega)

/-- C4 counterexample: the claim quotes the failure message as
"Systolic is required", but the code's message carries a trailing period. -/
theorem parse_int_message_has_period :
    ((parse_int "Systolic" "" 50 260).2 = some "Systolic is required") = False :=
  eq_false (by decide)

/-- C4 (amended): `parse_int` trims surrounding whitespace and then fails iff
the input is blank, unparseable, or out of the inclusive bound — with each
message ending in a period — and behaves as claimed on the four examples. -/
theorem parse_int_spec :
    (∀ (label raw : String) (lo hi : ℤ), pythonStrip raw = "" →
      parse_int label raw lo hi = (none, some (label ++ " is required."))) ∧
    (∀ (label raw : String) (lo hi : ℤ), ¬ pythonStrip raw = "" →
      pythonParseInt (pythonStrip raw) = none →
      parse_int label raw lo hi = (none, some (label ++ " must be a whole number."))) ∧
    (∀ (label raw : String) (lo hi v : ℤ), pythonParseInt (pythonStrip raw) = some v →
      ¬ (lo ≤ v ∧ v ≤ hi) →
      parse_int label raw lo hi = (none, some (label ++ " must be between " ++
        toString lo ++ " and " ++ toString hi ++ "."))) ∧
    (∀ (label raw : String) (lo hi v : ℤ), pythonParseInt (pythonStrip raw) = some v →
      lo ≤ v → v ≤ hi → parse_int label raw lo hi = (some v, none)) ∧
    parse_int "Systolic" "" 50 260 = (none, some "Systolic is required.") ∧
    parse_int "Systolic" "abc" 50 260 = (none, some "Systolic must be a whole number.") ∧
    parse_int "Systolic" "300" 50 260 = (none, some "Systolic must be between 50 and 260.") ∧
    parse_int "Systolic" "120" 50 260 = (some 120, none) := by
  refine ⟨?_, ?_, ?_, ?_, by decide, by decide, by decide, by decide⟩
  · intro label raw lo hi h
    simp [parse_int, h]
  · intro label raw lo hi h hp
    simp [parse_int, h, hp]
  · intro label raw lo hi v hp hb
    have hs : ¬ pythonStrip raw = "" := by
      intro he
      rw [he] at hp
      simp [pythonParseInt] at hp
    simp [parse_int, hs, hp, hb]
  · intro label raw lo hi v hp hlo hhi
    have hs : ¬ pythonStrip raw = "" := by
      intro he
      rw [he] at hp
      simp [pythonParseInt] at hp
    simp [parse_int, hs, hp, hlo, hhi]

/-- C4 witness: the trimming and in-bounds branch of `parse_int_spec` at a
concrete input with surrounding whitespace. -/
theorem parse_int_spec_witness :
    parse_int "Systolic" " 120 " 50 260 = (some 120, none) :=
  parse_int_spec.2.2.2.1 "Systolic" " 120 " 50 260 120 (by decide) (by decide) (by decide)

/-- C5: the derived metrics: `pulse_pressure = systolic - diastolic`
(a signed integer, never clamped), `map = round(dia + pp/3, 1)`, and the two
worked examples 120/80 ↦ (40, 93.3) and 140/90 ↦ (50, 106.7). -/
theorem derive_spec :
    (∀ sys dia : ℤ, (derive sys dia).1 = sys - dia) ∧
    (∀ sys dia : ℤ,
      (derive sys dia).2 = pythonRound1 ((dia : ℚ) + ((sys - dia : ℤ) : ℚ) / 3)) ∧
    derive 120 80 = (40, 933/10) ∧
    derive 140 90 = (50, 1067/10) := by
  refine ⟨fun sys dia => rfl, fun sys dia => rfl, ?_, ?_⟩ <;>
    · refine Prod.ext (by norm_num [derive]) ?_
      norm_num [derive, pythonRound1, roundHalfEven, Int.floor_eq_iff]

/-- C3: when the preferred backend is the remote spreadsheet and the remote
save fails, `save_data` persists the full dataset to the local CSV, reports
"local" as the backend used, and surfaces the failure among its warning
messages; the embedding is total, so no exception reaches the caller. -/
theorem save_data_remote_failure_falls_back (df : List Row) (errMsg : String) (st : Stores) :
    (save_data df "gsheets" true (some errMsg) st).1.localCsv = some df ∧
    (save_data df "gsheets" true (some errMsg) st).2.1 = "local" ∧
    errMsg ∈ (save_data df "gsheets" true (some errMsg) st).2.2 := by
  refine ⟨rfl, rfl, ?_⟩
  simp [save_data]

/-- C6: `mergeDatasets` is commutative and idempotent at the level of row
sets, and its output is sorted by timestamp ascending. -/
theorem mergeDatasets_comm_idem_sorted :
    (∀ (A B : List Row) (r : Row), r ∈ mergeDatasets A B ↔ r ∈ mergeDatasets B A) ∧
    (∀ (A : List Row) (r : Row), r ∈ mergeDatasets A A ↔ r ∈ A) ∧
    (∀ A B : List Row, List.Sorted tsLe (mergeDatasets A B)) := by
  refine ⟨?_, ?_, ?_⟩
  · intro A B r
    rw [mem_mergeDatasets, mem_mergeDatasets, or_comm]
  · intro A r
    rw [mem_mergeDatasets, or_self]
  · intro A B
    exact List.sorted_insertionSort tsLe _

/-- C7: `add_entry` on any prior dataset adds exactly one row (the new
reading), returns the result sorted by timestamp ascending, and the
`save_data` call persists exactly that dataset to whichever backend it
reports. -/
theorem add_entry_adds_one_sorted_saved
    (prior : List Row) (sys dia : ℤ) (notes : Option String) (ts : ℤ) :
    (add_entry prior sys dia notes ts).length = prior.length + 1 ∧
    (add_entry prior sys dia notes ts).Perm (mkRow sys dia notes ts :: prior) ∧
    List.Sorted tsLe (add_entry prior sys dia notes ts) ∧
    (∀ (hint : String) (en : Bool) (re : Option String) (st : Stores),
      ((add_entry_and_save prior sys dia notes ts hint en re st).1.2 = "local" ∧
        (add_entry_and_save prior sys dia notes ts hint en re st).2.localCsv =
          some (add_entry prior sys dia notes ts)) ∨
      ((add_entry_and_save prior sys dia notes ts hint en re st).1.2 = "gsheets" ∧
        (add_entry_and_save prior sys dia notes ts hint en re st).2.sheet =
          some (add_entry prior sys dia notes ts))) := by
  have hperm : (add_entry prior sys dia notes ts).Perm (mkRow sys dia notes ts :: prior) := by
    refine (List.perm_insertionSort tsLe _).trans ?_
    exact List.perm_append_comm
  refine ⟨?_, hperm, ?_, ?_⟩
  · rw [hperm.length_eq, List.length_cons]
  · exact List.sorted_insertionSort tsLe _
  · intro hint en re st
    simp only [add_entry_and_save, save_data]
    rcases re with _ | err
    · split_ifs with h
      · exact Or.inr ⟨rfl, rfl⟩
      · exact Or.inl ⟨rfl, rfl⟩
    · split_ifs with h
      · exact Or.inl ⟨rfl, rfl⟩
      · exact Or.inl ⟨rfl, rfl⟩

/-- C9: when the local backing file is absent, `load_data_local` returns an
empty dataframe carrying the canonical column set rather than an error. -/
theorem load_data_local_missing_file :
    load_data_local none = { columns := DATA_COLUMNS, rows := [] } ∧
    DATA_COLUMNS = ["timestamp", "systolic", "diastolic", "notes", "category", "map"] :=
  ⟨rfl, rfl⟩

/-- C8: the weekly summary buckets readings by the calendar week of their
timestamp; for a dataset of exactly two readings in the same calendar week
the single output row has a `systolic_count` column equal to 2 and a
`systolic_mean` column equal to the arithmetic mean of the two systolic
values, columns are named `<metric>_<statistic>`, and for every dataset the
output rows are ordered by week strictly ascending. -/
theorem weekly_summary_spec :
    (∀ r1 r2 : Row, weekStart r1.timestamp = weekStart r2.timestamp →
      ∃ cols, weekly_summary [r1, r2] = [(weekStart r2.timestamp, cols)] ∧
        List.lookup "systolic_count" cols = some 2 ∧
        List.lookup "systolic_mean" cols =
          some (((r1.systolic : ℚ) + (r2.systolic : ℚ)) / 2)) ∧
    (∀ rows : List Row,
      List.Sorted (fun a b : ℤ => a < b) ((weekly_summary rows).map Prod.fst)) := by
  constructor
  · intro r1 r2 h
    refine ⟨[("systolic_count", (2 : ℚ)),
             ("systolic_mean", ((r1.systolic : ℚ) + (r2.systolic : ℚ)) / 2),
             ("systolic_min", min (r1.systolic : ℚ) (r2.systolic : ℚ)),
             ("systolic_max", max (r1.systolic : ℚ) (r2.systolic : ℚ)),
             ("diastolic_count", (2 : ℚ)),
             ("diastolic_mean", ((r1.diastolic : ℚ) + (r2.diastolic : ℚ)) / 2),
             ("diastolic_min", min (r1.diastolic : ℚ) (r2.diastolic : ℚ)),
             ("diastolic_max", max (r1.diastolic : ℚ) (r2.diastolic : ℚ)),
             ("map_count", (2 : ℚ)),
             ("map_mean", (r1.map + r2.map) / 2),
             ("map_min", min r1.map r2.map),
             ("map_max", max r1.map r2.map),
             ("pulse_pressure_count", (2 : ℚ)),
             ("pulse_pressure_mean",
               ((r1.pulse_pressure : ℚ) + (r2.pulse_pressure : ℚ)) / 2),
             ("pulse_pressure_min", min (r1.pulse_pressure : ℚ) (r2.pulse_pressure : ℚ)),
             ("pulse_pressure_max", max (r1.pulse_pressure : ℚ) (r2.pulse_pressure : ℚ))],
            ?_, ?_, ?_⟩
    · simp only [weekly_summary, List.map_cons, List.map_nil]
      simp [h, statsFor, List.dedup_cons_of_mem, List.insertionSort, List.orderedInsert,
        List.filter]
      norm_num
    · simp [List.lookup]
    · simp [List.lookup]
  · intro rows
    have h1 := List.sorted_insertionSort (fun a b : ℤ => a ≤ b)
      ((rows.map (fun r => weekStart r.timestamp)).dedup)
    have h2 : ((rows.map (fun r => weekStart r.timestamp)).dedup.insertionSort
        (fun a b : ℤ => a ≤ b)).Nodup :=
      (List.perm_insertionSort _ _).nodup_iff.mpr (List.nodup_dedup _)
    have h3 := (h1.and h2).imp (fun hab => lt_of_le_of_ne hab.1 hab.2)
    simpa [weekly_summary, List.map_map, Function.comp_def, List.Sorted] using h3

/-- C8 witness: two concrete readings on consecutive days of the same
calendar week produce one summary row with systolic count 2 and systolic
mean 125. -/
theorem weekly_summary_spec_witness :
    ∃ cols,
      weekly_summary
        [{ timestamp := 0, systolic := 120, diastolic := 80, notes := "",
           category := "Normal", map := 933/10, pulse_pressure := 40 },
         { timestamp := 1, systolic := 130, diastolic := 85, notes := "",
           category := "Hypertension Stage 1", map := 100, pulse_pressure := 45 }] =
        [(weekStart (1 : ℤ), cols)] ∧
      List.lookup "systolic_count" cols = some 2 ∧
      List.lookup "systolic_mean" cols = some (((120 : ℚ) + (130 : ℚ)) / 2) :=
  weekly_summary_spec.1
    { timestamp := 0, systolic := 120, diastolic := 80, notes := "",
      category := "Normal", map := 933/10, pulse_pressure := 40 }
    { timestamp := 1, systolic := 130, diastolic := 85, notes := "",
      category := "Hypertension Stage 1", map := 100, pulse_pressure := 45 }
    (by decide)
